import Mathlib

/-!
# Access-key lifecycle and verification subsystem

A shallow embedding of the access-key core of the `tuwenv2` repository:
the Postgres tables `access_keys` and `usage_logs` become lists of records,
and each database function of `src/api/_db.ts` becomes a pure state
transformer. Timestamps are integers (milliseconds since the epoch); the
current clock `new Date()` is passed explicitly as a `now` parameter.
SQL-level failures (connection loss, constraint violations) are out of
scope; the admin-password comparison of the HTTP handlers is abstracted
into a boolean `authorized` argument.
-/

namespace TuwenV2

/-- A row of the `access_keys` table (`src/api/_db.ts`, `initDatabase`). -/
structure AccessKey where
  id : Int
  code : String
  name : String
  maxUses : Int
  usedCount : Int
  expiresAt : Option Int
  isActive : Bool
  createdAt : Int
deriving Repr, DecidableEq

/-- A row of the `usage_logs` table (`src/api/_db.ts`, `initDatabase`). -/
structure UsageLog where
  id : Int
  keyId : Int
  requestText : String
  success : Bool
  errorMsg : String
  createdAt : Int
deriving Repr, DecidableEq

deriving instance DecidableEq for Except

/-- The database state: both tables plus the two SERIAL counters. -/
structure DbState where
  keys : List AccessKey
  logs : List UsageLog
  nextKeyId : Int
  nextLogId : Int
deriving Repr, DecidableEq

/-- Verification rejections of `verifyAccessKey` (the three `throw new Error`
branches at `src/api/_db.ts:55-57`). -/
inductive VerifyError where
  | invalidKey
  | expired
  | quotaExhausted
deriving Repr, DecidableEq

/-- Registry errors of `createAccessKey` (the duplicate-name `throw` at
`src/api/_db.ts:76`). -/
inductive RegistryError where
  | duplicateName (name : String)
deriving Repr, DecidableEq

/-- First row of `SELECT * FROM access_keys WHERE key_code = $1 AND
is_active = true` (`src/api/_db.ts:50-54`). -/
def lookupActive (keyCode : String) (s : DbState) : Option AccessKey :=
  s.keys.find? (fun k => k.code == keyCode && k.isActive)

/-- `verifyAccessKey` (`src/api/_db.ts:49-59`): look up an active key by
code; reject `invalidKey` when none matches; reject `expired` when
`expires_at` is present and strictly before `now` (JS
`new Date(key.expires_at) < new Date()`); reject `quotaExhausted` when
`max_uses !== -1 && used_count >= max_uses`; otherwise admit the row. -/
def verifyAccessKey (keyCode : String) (now : Int) (s : DbState) :
    Except VerifyError AccessKey :=
  match lookupActive keyCode s with
  | none => .error .invalidKey
  | some key =>
    match key.expiresAt with
    | some t =>
      if t < now then .error .expired
      else if key.maxUses ≠ -1 ∧ key.maxUses ≤ key.usedCount then .error .quotaExhausted
      else .ok key
    | none =>
      if key.maxUses ≠ -1 ∧ key.maxUses ≤ key.usedCount then .error .quotaExhausted
      else .ok key

/-- `updateAccessKeyUsage` (`src/api/_db.ts:61-63`):
`UPDATE access_keys SET used_count = used_count + 1 WHERE id = $1`. -/
def updateAccessKeyUsage (keyId : Int) (s : DbState) : DbState :=
  { s with keys := s.keys.map (fun k =>
      if k.id = keyId then { k with usedCount := k.usedCount + 1 } else k) }

/-- `logUsage` (`src/api/_db.ts:65-70`): insert one `usage_logs` row. The
stored `request_text` is the template `[IP: ${ip}] ${requestText}` and the
stored `error_msg` is JS `errorMsg || ''`, i.e. the message when present
and the empty string when the argument is null/undefined (an empty message
also stays empty). -/
def logUsage (keyId : Int) (ip requestText : String) (success : Bool)
    (errorMsg : Option String) (now : Int) (s : DbState) : DbState :=
  let row : UsageLog :=
    { id := s.nextLogId
      keyId := keyId
      requestText := "[IP: " ++ ip ++ "] " ++ requestText
      success := success
      errorMsg := errorMsg.getD ""
      createdAt := now }
  { s with logs := s.logs ++ [row], nextLogId := s.nextLogId + 1 }

/-- `date.setDate(date.getDate() + daysValid)` abstracted to a fixed-length
day: `daysValid` days in milliseconds. -/
def daysToMs (d : Int) : Int := d * 86400000

/-- The row inserted by `createAccessKey` (`src/api/_db.ts:79-89`):
`expires_at` computed from `daysValid` (JS `if (daysValid)`: both absence
and `0` leave it null), `used_count = 0` and `is_active = true` per the
SQL column defaults, and the generated code passed in as `keyCode` (the
random draw of `generateKey` is abstracted into this parameter). -/
def newAccessKeyRow (name : String) (maxUses : Int) (daysValid : Option Int)
    (keyCode : String) (now : Int) (s : DbState) : AccessKey :=
  { id := s.nextKeyId
    code := keyCode
    name := name
    maxUses := maxUses
    usedCount := 0
    expiresAt :=
      match daysValid with
      | some d => if d = 0 then none else some (now + daysToMs d)
      | none => none
    isActive := true
    createdAt := now }

/-- `createAccessKey` (`src/api/_db.ts:72-92`): fail with `duplicateName`
when any row (active or not) already carries `name`; otherwise insert
`newAccessKeyRow` and return it together with the new store. -/
def createAccessKey (name : String) (maxUses : Int) (daysValid : Option Int)
    (keyCode : String) (now : Int) (s : DbState) :
    Except RegistryError (AccessKey × DbState) :=
  if s.keys.any (fun k => k.name == name) then
    .error (.duplicateName name)
  else
    let key := newAccessKeyRow name maxUses daysValid keyCode now s
    .ok (key, { s with keys := s.keys ++ [key], nextKeyId := s.nextKeyId + 1 })

/-- `updateAccessKey` (`src/api/_db.ts:94-102`):
`UPDATE access_keys SET max_uses = $2, expires_at = $3 WHERE id = $1
RETURNING *`; the returned value is `result.rows[0]`, which is undefined
(`none`) when no row matched. -/
def updateAccessKey (id : Int) (maxUses : Int) (expiresAt : Option Int)
    (s : DbState) : Option AccessKey × DbState :=
  let keys := s.keys.map (fun k =>
    if k.id = id then { k with maxUses := maxUses, expiresAt := expiresAt } else k)
  (keys.find? (fun k => k.id == id), { s with keys := keys })

/-- `DELETE FROM usage_logs WHERE key_id = $1` (`src/api/_db.ts:106`). -/
def deleteUsageLogsByKey (id : Int) (s : DbState) : DbState :=
  { s with logs := s.logs.filter (fun l => !(l.keyId == id)) }

/-- `DELETE FROM access_keys WHERE id = $1` (`src/api/_db.ts:108`). -/
def deleteAccessKeyRow (id : Int) (s : DbState) : DbState :=
  { s with keys := s.keys.filter (fun k => !(k.id == id)) }

/-- `deleteAccessKey` (`src/api/_db.ts:104-110`): first the logs, then the
key row; always returns success. -/
def deleteAccessKey (id : Int) (s : DbState) : DbState :=
  deleteAccessKeyRow id (deleteUsageLogsByKey id s)

/-- Insert into a list kept sorted by descending sort key (used to model
SQL `ORDER BY created_at DESC`). -/
def insertDescBy {α : Type} (f : α → Int) (x : α) : List α → List α
  | [] => [x]
  | y :: ys => if f y ≤ f x then x :: y :: ys else y :: insertDescBy f x ys

/-- Sort by descending sort key (insertion sort). -/
def sortDescBy {α : Type} (f : α → Int) : List α → List α
  | [] => []
  | y :: ys => insertDescBy f y (sortDescBy f ys)

/-- `getAllKeys` (`src/api/_db.ts:112-115`):
`SELECT * FROM access_keys ORDER BY created_at DESC`. -/
def getAllKeys (s : DbState) : List AccessKey :=
  sortDescBy (fun k => k.createdAt) s.keys

/-- `getKeyLogs` (`src/api/_db.ts:117-120`): `SELECT * FROM usage_logs
WHERE key_id = $1 ORDER BY created_at DESC LIMIT 50`. -/
def getKeyLogs (keyId : Int) (s : DbState) : List UsageLog :=
  (sortDescBy (fun l => l.createdAt) (s.logs.filter (fun l => l.keyId == keyId))).take 50

/-- First row with a given id (`WHERE id = $1` row lookup helper). -/
def findKey (id : Int) (s : DbState) : Option AccessKey :=
  s.keys.find? (fun k => k.id == id)

/-- Abstraction of the external Gemini generation step of
`src/api/generate-card.ts` (steps 2-4): it either produces card data or
throws an error whose `.message` may be absent (`none`) — JS allows thrown
values without a message. -/
inductive GenOutcome where
  | ok (data : String)
  | fail (msg : Option String)
deriving Repr, DecidableEq

/-- Outcome of one `generate-card` request, after the verification stage. -/
inductive GenResult where
  | success (data : String)
  | denied
  | failed
deriving Repr, DecidableEq

/-- The `generate-card.ts` handler (`src/api/generate-card.ts:32-122`),
after CORS/method/auth-header handling: verify the bearer key; a
verification throw is caught with `keyId = 0`, so nothing is logged and the
state is untouched (`denied`). On an admitted key, a successful generation
runs `updateAccessKeyUsage` then `logUsage(..., true, null)`; a failed
generation is caught with `keyId > 0` and runs only
`logUsage(..., false, error.message)`. -/
def genCardHandler (accessKey ip inputText : String) (gen : GenOutcome)
    (now : Int) (s : DbState) : GenResult × DbState :=
  match verifyAccessKey accessKey now s with
  | .error _ => (.denied, s)
  | .ok key =>
    match gen with
    | .ok data =>
      let s1 := updateAccessKeyUsage key.id s
      let s2 := logUsage key.id ip inputText true none now s1
      (.success data, s2)
    | .fail msg =>
      (.failed, logUsage key.id ip inputText false msg now s)

/-- A JavaScript request-body field as seen through `Number(...)`: absent
(`Number(undefined) = NaN`), non-numeric (`NaN` again), or an integer. -/
inductive JsNumInput where
  | absent
  | nonNumeric
  | num (n : Int)
deriving Repr, DecidableEq

/-- JS `Number(v) || d`: the default wins exactly when `Number(v)` is falsy,
i.e. NaN (absent or non-numeric input) or `0`. -/
def jsNumberOr (v : JsNumInput) (dflt : Int) : Int :=
  match v with
  | .num n => if n = 0 then dflt else n
  | _ => dflt

/-- Response of the admin create-key endpoint. -/
inductive CreateKeyResp where
  | unauthorized
  | nameRequired
  | created (key : AccessKey)
  | err (e : RegistryError)
deriving Repr, DecidableEq

/-- The admin create-key handler (`src/unnamed/part_002`): password check,
`if (!name)` check, then
`createAccessKey(name, Number(maxUses) || 100, Number(expiresInDays) || 30)`;
a `createAccessKey` throw becomes a 500 response carrying the error. -/
def createKeyRequest (authorized : Bool) (name : String)
    (maxUses expiresInDays : JsNumInput) (keyCode : String) (now : Int)
    (s : DbState) : CreateKeyResp × DbState :=
  if !authorized then (.unauthorized, s)
  else if name == "" then (.nameRequired, s)
  else
    match createAccessKey name (jsNumberOr maxUses 100)
        (some (jsNumberOr expiresInDays 30)) keyCode now s with
    | .ok (k, s') => (.created k, s')
    | .error e => (.err e, s)

/-- Response of the admin update-key endpoint: `ok` is the HTTP 200 path,
carrying `result.rows[0]` which is `none` when no row matched; `err` is
the 500 catch path (unreachable here since no SQL failures are modelled). -/
inductive UpdateKeyResp where
  | unauthorized
  | idRequired
  | ok (row : Option AccessKey)
  | err
deriving Repr, DecidableEq

/-- The admin update-key handler (`src/unnamed/part_001`): password check,
`if (!id)` check (JS falsy: `0` models the missing/zero id), then
`updateAccessKey(Number(id), Number(maxUses), expiresAt || null)` and a
200 response with whatever row (possibly none) came back. -/
def updateKeyRequest (authorized : Bool) (id : Int) (maxUses : Int)
    (expiresAt : Option Int) (s : DbState) : UpdateKeyResp × DbState :=
  if !authorized then (.unauthorized, s)
  else if id = 0 then (.idRequired, s)
  else
    let r := updateAccessKey id maxUses expiresAt s
    (.ok r.1, r.2)

/-- The operations of the core, for stating whole-lifecycle invariants. -/
inductive Op where
  | create (name : String) (maxUses : Int) (daysValid : Option Int)
      (keyCode : String) (now : Int)
  | update (id : Int) (maxUses : Int) (expiresAt : Option Int)
  | delete (id : Int)
  | verify (keyCode : String) (now : Int)
  | generate (accessKey ip inputText : String) (gen : GenOutcome) (now : Int)

/-- State effect of each core operation. `verify` only issues a SELECT
(`src/api/_db.ts:49-59`), so its state effect is the identity; a rejected
`create` leaves the store untouched (the throw precedes the INSERT). -/
def runOp : Op → DbState → DbState
  | .create n mu dv c now, s =>
    match createAccessKey n mu dv c now s with
    | .ok (_, s') => s'
    | .error _ => s
  | .update id mu ea, s => (updateAccessKey id mu ea s).2
  | .delete id, s => deleteAccessKey id s
  | .verify _ _, s => s
  | .generate k ip t g now, s => (genCardHandler k ip t g now s).2

/-- Admissibility as the code checks it (`src/api/_db.ts:55-57`): active,
not yet strictly past expiry (`now ≤ t`, since the code only rejects
`t < now`), and within quota. -/
def admissibleB (k : AccessKey) (now : Int) : Bool :=
  k.isActive
    && (match k.expiresAt with
        | none => true
        | some t => decide (now ≤ t))
    && (decide (k.maxUses = -1) || decide (k.usedCount < k.maxUses))

/-- Admissibility as the claim words it: `expiresAt > now` strictly. This
definition follows the spec sentence, not the source, and exists only to be
compared against `verifyAccessKey`. -/
def admissibleClaimB (k : AccessKey) (now : Int) : Bool :=
  k.isActive
    && (match k.expiresAt with
        | none => true
        | some t => decide (now < t))
    && (decide (k.maxUses = -1) || decide (k.usedCount < k.maxUses))

/-! ## Sample rows and states used by counterexamples and witnesses -/

/-- A sample active key: unlimited quota, expiry at time 5. -/
def kSample : AccessKey :=
  { id := 1, code := "sk-alpha", name := "alpha", maxUses := -1, usedCount := 0
    expiresAt := some 5, isActive := true, createdAt := 0 }

/-- A sample store holding only `kSample`. -/
def sSample : DbState := { keys := [kSample], logs := [], nextKeyId := 2, nextLogId := 1 }

/-- The empty store. -/
def sEmpty : DbState := { keys := [], logs := [], nextKeyId := 1, nextLogId := 1 }

/-! ## C1 — verification admissibility -/

/-- C1 (amended): with the active-code lookup resolved, `verifyAccessKey`
admits the looked-up key `K` iff `K.isActive` and (`expiresAt` absent or
`expiresAt ≥ now`) and (`maxUses = -1` or `usedCount < maxUses`); when no
active key matches the code it rejects `invalidKey`; when the expiry
condition fails it rejects `expired`; when expiry holds but the quota
condition fails it rejects `quotaExhausted`. (The claim's strict
`expiresAt > now` is amended to `expiresAt ≥ now`: the code only rejects
`expiresAt < now`.) -/
theorem c1_verify_admits_iff (s : DbState) (keyCode : String) (now : Int) :
    (lookupActive keyCode s = none →
      verifyAccessKey keyCode now s = Except.error VerifyError.invalidKey) ∧
    ∀ K, lookupActive keyCode s = some K →
      ((verifyAccessKey keyCode now s = Except.ok K) ↔ admissibleB K now = true) ∧
      (∀ t, K.expiresAt = some t → t < now →
        verifyAccessKey keyCode now s = Except.error VerifyError.expired) ∧
      ((∀ t, K.expiresAt = some t → now ≤ t) →
        K.maxUses ≠ -1 → K.maxUses ≤ K.usedCount →
        verifyAccessKey keyCode now s = Except.error VerifyError.quotaExhausted) := by
  constructor
  · intro h
    simp [verifyAccessKey, h]
  · intro K hK
    have hact : K.isActive = true := by
      have hp := List.find?_some hK
      simp only [Bool.and_eq_true, beq_iff_eq] at hp
      exact hp.2
    refine ⟨?_, ?_, ?_⟩
    · simp only [verifyAccessKey, hK]
      cases hE : K.expiresAt with
      | none =>
        simp only [admissibleB, hE, hact]
        by_cases h : K.maxUses ≠ -1 ∧ K.maxUses ≤ K.usedCount
        · rw [if_pos h]
          simp only [Bool.true_and, Bool.or_eq_true, decide_eq_true_eq]
          constructor
          · intro hcon
            exact absurd hcon (by simp)
          · intro hb
            exfalso
            omega
        · rw [if_neg h]
          simp only [Bool.true_and, Bool.or_eq_true, decide_eq_true_eq]
          constructor
          · intro _
            omega
          · intro _
            trivial
      | some t =>
        simp only [admissibleB, hE, hact]
        by_cases ht : t < now
        · rw [if_pos ht]
          simp only [Bool.true_and, Bool.and_eq_true, Bool.or_eq_true, decide_eq_true_eq]
          constructor
          · intro hcon
            exact absurd hcon (by simp)
          · intro hb
            exfalso
            omega
        · rw [if_neg ht]
          by_cases h : K.maxUses ≠ -1 ∧ K.maxUses ≤ K.usedCount
          · rw [if_pos h]
            simp only [Bool.true_and, Bool.and_eq_true, Bool.or_eq_true, decide_eq_true_eq]
            constructor
            · intro hcon
              exact absurd hcon (by simp)
            · intro hb
              exfalso
              omega
          · rw [if_neg h]
            simp only [Bool.true_and, Bool.and_eq_true, Bool.or_eq_true, decide_eq_true_eq]
            constructor
            · intro _
              exact ⟨by omega, by omega⟩
            · intro _
              trivial
    · intro t hEt hlt
      simp only [verifyAccessKey, hK, hEt]
      rw [if_pos hlt]
    · intro hexp hne hle
      cases hE : K.expiresAt with
      | none =>
        simp only [verifyAccessKey, hK, hE]
        rw [if_pos ⟨hne, hle⟩]
      | some t =>
        have hnlt : ¬ t < now := by
          have := hexp t hE
          omega
        simp only [verifyAccessKey, hK, hE]
        rw [if_neg hnlt, if_pos ⟨hne, hle⟩]

/-- C1 counterexample: at the expiry boundary `expiresAt = now` the code
admits the key (it only rejects strictly-past expiries), while the claim's
admissibility predicate — `expiresAt > now`, transcribed verbatim in
`admissibleClaimB` — is false, so the claimed "admits iff" equivalence
fails at this input. -/
theorem c1_counterexample :
    verifyAccessKey "sk-alpha" 5 sSample = Except.ok kSample ∧
    admissibleClaimB kSample 5 = false := by decide

/-- Witness for `c1_verify_admits_iff`: on the sample store at time 4 the
lookup succeeds and the amended admissibility predicate evaluates to true,
so the theorem yields admission of the sample key. -/
theorem c1_witness :
    verifyAccessKey "sk-alpha" 4 sSample = Except.ok kSample :=
  (((c1_verify_admits_iff sSample "sk-alpha" 4).2 kSample (by decide)).1).mpr (by decide)

/-! ## C2 — success-path usage accounting -/

/-- C2: on the success path (verification admitted `key` and generation
succeeded), exactly one UsageLog row with `success = true` and
`keyId = key.id` is appended, every stored row with `key.id` has its
`usedCount` incremented by exactly 1, and every key with a different id is
unchanged (and no row appears or disappears). -/
theorem c2_recordUsage_success (s : DbState) (accessKey ip inputText data : String)
    (now : Int) (key : AccessKey)
    (hv : verifyAccessKey accessKey now s = Except.ok key) :
    (genCardHandler accessKey ip inputText (GenOutcome.ok data) now s).2.logs =
      s.logs ++ [{ id := s.nextLogId, keyId := key.id,
                   requestText := "[IP: " ++ ip ++ "] " ++ inputText,
                   success := true, errorMsg := "", createdAt := now }] ∧
    (∀ k, k ∈ s.keys → k.id = key.id →
      { k with usedCount := k.usedCount + 1 } ∈
        (genCardHandler accessKey ip inputText (GenOutcome.ok data) now s).2.keys) ∧
    (∀ k, k ∈ s.keys → k.id ≠ key.id →
      k ∈ (genCardHandler accessKey ip inputText (GenOutcome.ok data) now s).2.keys) ∧
    (genCardHandler accessKey ip inputText (GenOutcome.ok data) now s).2.keys.length
      = s.keys.length := by
  simp only [genCardHandler, hv, logUsage, updateAccessKeyUsage]
  refine ⟨rfl, ?_, ?_, by simp⟩
  · intro k hk hkid
    have hfk : ({ k with usedCount := k.usedCount + 1 } : AccessKey) =
        (fun k => if k.id = key.id then { k with usedCount := k.usedCount + 1 } else k) k := by
      simp only [if_pos hkid]
    rw [hfk]
    exact List.mem_map_of_mem _ hk
  · intro k hk hkid
    have hfk : k = (fun k => if k.id = key.id then { k with usedCount := k.usedCount + 1 } else k) k := by
      simp only [if_neg hkid]
    rw [hfk]
    exact List.mem_map_of_mem _ hk

/-- Witness for `c2_recordUsage_success`: running the handler on the sample
store with an admitted key and a successful generation appends the expected
success log row. -/
theorem c2_witness :
    (genCardHandler "sk-alpha" "9.9.9.9" "hi" (GenOutcome.ok "card") 4 sSample).2.logs =
      sSample.logs ++ [{ id := 1, keyId := 1, requestText := "[IP: 9.9.9.9] hi",
                         success := true, errorMsg := "", createdAt := 4 }] :=
  (c2_recordUsage_success sSample "sk-alpha" "9.9.9.9" "hi" "card" 4 kSample (by decide)).1

/-! ## C3 — failure-path usage accounting -/

/-- C3 (amended): on the failure path (verification admitted `key` but the
downstream generation failed), the `access_keys` table — in particular
every `usedCount` — is completely unchanged, and exactly one UsageLog row
with `success = false` is appended whose `errorMsg` equals the failing
error's message (`error.message || ''`): non-empty whenever the error
carries a non-empty message, and the empty string when it does not. (The
claim's unconditional "non-empty errorMsg" is amended: the code stores
whatever message the caught error carries, possibly empty.) -/
theorem c3_recordUsage_failure (s : DbState) (accessKey ip inputText : String)
    (now : Int) (key : AccessKey) (msg : Option String)
    (hv : verifyAccessKey accessKey now s = Except.ok key) :
    (genCardHandler accessKey ip inputText (GenOutcome.fail msg) now s).2.keys = s.keys ∧
    (genCardHandler accessKey ip inputText (GenOutcome.fail msg) now s).2.logs =
      s.logs ++ [{ id := s.nextLogId, keyId := key.id,
                   requestText := "[IP: " ++ ip ++ "] " ++ inputText,
                   success := false, errorMsg := msg.getD "", createdAt := now }] ∧
    (∀ m, msg = some m → m ≠ "" → msg.getD "" ≠ "") := by
  simp only [genCardHandler, hv, logUsage]
  refine ⟨trivial, trivial, ?_⟩
  intro m hm hne
  simp only [hm, Option.getD_some]
  exact hne

/-- C3 counterexample: a failure-path call whose generation error carries
no message (`error.message` undefined) appends its single `success = false`
log row with an **empty** `errorMsg` — `logUsage` stores
`errorMsg || ''` — refuting the claim that every failure-path call appends
a row with a non-empty `errorMsg`. -/
theorem c3_counterexample :
    verifyAccessKey "sk-alpha" 4 sSample = Except.ok kSample ∧
    ((genCardHandler "sk-alpha" "9.9.9.9" "hi" (GenOutcome.fail none) 4 sSample).2.logs.all
      (fun l => !l.success && (l.errorMsg == ""))) = true ∧
    (genCardHandler "sk-alpha" "9.9.9.9" "hi" (GenOutcome.fail none) 4 sSample).2.logs.length
      = 1 := by decide

/-- Witness for `c3_recordUsage_failure`: on the sample store a failed
generation against the admitted sample key leaves the key table unchanged. -/
theorem c3_witness :
    (genCardHandler "sk-alpha" "9.9.9.9" "hi" (GenOutcome.fail (some "boom")) 4 sSample).2.keys
      = sSample.keys :=
  (c3_recordUsage_failure sSample "sk-alpha" "9.9.9.9" "hi" 4 kSample (some "boom") (by decide)).1

/-! ## C10 — verification is read-only -/

/-- C10: `verifyAccessKey` only reads (its state effect is the identity),
and on any verification rejection the whole `generate-card` request leaves
the store exactly as it was — the catch block sees `keyId = 0`, so no
UsageLog row is written and no `usedCount` moves. -/
theorem c10_verify_readonly (keyCode : String) (now : Int) (s : DbState)
    (ip inputText : String) (gen : GenOutcome) :
    runOp (Op.verify keyCode now) s = s ∧
    (∀ e, verifyAccessKey keyCode now s = Except.error e →
      genCardHandler keyCode ip inputText gen now s = (GenResult.denied, s)) := by
  refine ⟨rfl, ?_⟩
  intro e hv
  simp only [genCardHandler, hv]

/-- Witness for `c10_verify_readonly`: a request bearing an unknown code is
denied and returns the sample store untouched. -/
theorem c10_witness :
    genCardHandler "nope" "ip" "hi" (GenOutcome.ok "card") 4 sSample
      = (GenResult.denied, sSample) :=
  (c10_verify_readonly "nope" 4 sSample "ip" "hi" (GenOutcome.ok "card")).2
    VerifyError.invalidKey (by decide)

/-! ## C4 — duplicate-name rejection at creation -/

/-- C4: when any stored key (active or not) already carries `name`,
`createAccessKey` fails with `duplicateName name` and inserts nothing;
and starting from a store with no key named `name`, a create followed by a
second create of the same name yields one success, one `duplicateName`
rejection, and exactly one stored key named `name`. -/
theorem c4_createKey_duplicate_name (s : DbState) (name : String) (mu1 mu2 : Int)
    (dv1 dv2 : Option Int) (code1 code2 : String) (now1 now2 : Int) :
    ((∃ k, k ∈ s.keys ∧ k.name = name) →
      createAccessKey name mu1 dv1 code1 now1 s
        = Except.error (RegistryError.duplicateName name) ∧
      runOp (Op.create name mu1 dv1 code1 now1) s = s) ∧
    ((∀ k, k ∈ s.keys → k.name ≠ name) →
      ∃ K s1, createAccessKey name mu1 dv1 code1 now1 s = Except.ok (K, s1) ∧
        K.name = name ∧
        createAccessKey name mu2 dv2 code2 now2 s1
          = Except.error (RegistryError.duplicateName name) ∧
        s1.keys.countP (fun k => k.name == name) = 1) := by
  constructor
  · rintro ⟨k, hk, hkn⟩
    have hany : s.keys.any (fun k => k.name == name) = true := by
      rw [List.any_eq_true]
      exact ⟨k, hk, by simp [hkn]⟩
    constructor
    · simp [createAccessKey, hany]
    · simp [runOp, createAccessKey, hany]
  · intro hno
    have hany : s.keys.any (fun k => k.name == name) = false := by
      rw [List.any_eq_false]
      intro k hk
      simp only [beq_iff_eq]
      exact hno k hk
    refine ⟨newAccessKeyRow name mu1 dv1 code1 now1 s,
            { s with keys := s.keys ++ [newAccessKeyRow name mu1 dv1 code1 now1 s],
                     nextKeyId := s.nextKeyId + 1 },
            ?_, rfl, ?_, ?_⟩
    · simp [createAccessKey, hany]
    · have hany2 : (s.keys ++ [newAccessKeyRow name mu1 dv1 code1 now1 s]).any
          (fun k => k.name == name) = true := by
        rw [List.any_eq_true]
        exact ⟨newAccessKeyRow name mu1 dv1 code1 now1 s, by simp, by simp [newAccessKeyRow]⟩
      simp [createAccessKey, hany2]
    · simp only [List.countP_append]
      have h0 : s.keys.countP (fun k => k.name == name) = 0 := by
        rw [List.countP_eq_zero]
        intro k hk
        simp only [beq_iff_eq]
        exact hno k hk
      rw [h0]
      simp [List.countP, List.countP.go, newAccessKeyRow]

/-- Witness for `c4_createKey_duplicate_name`: creating a key named
`"alpha"` on the sample store (which already holds one) is rejected with
`duplicateName "alpha"` and leaves the store unchanged. -/
theorem c4_witness :
    createAccessKey "alpha" (-1) none "sk-d" 0 sSample
      = Except.error (RegistryError.duplicateName "alpha") ∧
    runOp (Op.create "alpha" (-1) none "sk-d" 0) sSample = sSample :=
  (c4_createKey_duplicate_name sSample "alpha" (-1) 100 none none "sk-d" "sk-e" 0 1).1
    ⟨kSample, by decide, by decide⟩

/-! ## C5 — delete cascades logs, is idempotent, kills verification -/

/-- C5: `deleteAccessKey` deletes the UsageLog rows of `id` first and the
key row second; afterwards `getKeyLogs id` is empty and no key with `id`
remains; deleting again is a no-op (so deleting a nonexistent id
succeeds without effect); and — provided no other stored key shares the
deleted key's code — verifying that code now rejects with `invalidKey`. -/
theorem c5_deleteKey (id : Int) (s : DbState) (now : Int) :
    deleteAccessKey id s = deleteAccessKeyRow id (deleteUsageLogsByKey id s) ∧
    getKeyLogs id (deleteAccessKey id s) = [] ∧
    findKey id (deleteAccessKey id s) = none ∧
    deleteAccessKey id (deleteAccessKey id s) = deleteAccessKey id s ∧
    (∀ K, K ∈ s.keys → K.id = id →
      (∀ k, k ∈ s.keys → k.code = K.code → k.id = id) →
      verifyAccessKey K.code now (deleteAccessKey id s)
        = Except.error VerifyError.invalidKey) := by
  refine ⟨rfl, ?_, ?_, ?_, ?_⟩
  · simp only [getKeyLogs, deleteAccessKey, deleteAccessKeyRow, deleteUsageLogsByKey,
      List.filter_filter]
    have : ∀ l : List UsageLog,
        l.filter (fun a => (a.keyId == id) && !(a.keyId == id)) = [] := by
      intro l
      rw [List.filter_eq_nil_iff]
      intro a _
      simp
    rw [this]
    rfl
  · simp only [findKey, deleteAccessKey, deleteAccessKeyRow, deleteUsageLogsByKey]
    rw [List.find?_eq_none]
    intro k hk
    have := (List.mem_filter.mp hk).2
    simpa using this
  · simp only [deleteAccessKey, deleteAccessKeyRow, deleteUsageLogsByKey,
      List.filter_filter]
    simp
  · intro K _ hKid huniq
    have hlook : lookupActive K.code (deleteAccessKey id s) = none := by
      simp only [lookupActive, deleteAccessKey, deleteAccessKeyRow, deleteUsageLogsByKey]
      rw [List.find?_eq_none]
      intro k hk
      have hmem := (List.mem_filter.mp hk).1
      have hne := (List.mem_filter.mp hk).2
      simp only [Bool.not_eq_eq_eq_not, Bool.not_true, beq_eq_false_iff_ne, ne_eq] at hne
      simp only [Bool.and_eq_true, beq_iff_eq, not_and]
      intro hcode _
      exact hne (huniq k hmem hcode)
    simp only [verifyAccessKey, hlook]

/-- Witness for `c5_deleteKey`: deleting the sample key removes it, empties
its logs, is idempotent, and its code then fails verification with
`invalidKey`. -/
theorem c5_witness :
    verifyAccessKey "sk-alpha" 4 (deleteAccessKey 1 sSample)
      = Except.error VerifyError.invalidKey :=
  (c5_deleteKey 1 sSample 4).2.2.2.2 kSample (by decide) (by decide)
    (fun k hk hcode => by
      have : k = kSample := by
        simpa [sSample] using hk
      rw [this]
      decide)

/-! ## C6 — usedCount starts at 0 and never decreases -/

/-- C6: across every core operation, each key present afterwards falls
into exactly one of three cases: it descends from a stored row with the
same id and an **equal** `usedCount` (no operation other than the Usage
Accountant's increment ever touches the counter); or it descends from a
stored row with the same id and `usedCount` exactly one higher, and then
the operation is the success-path generation whose admitted key carries
that id (the Accountant's single increment); or it is the row freshly
inserted by a create, whose `usedCount` is 0. In particular `usedCount`
starts at 0, never decreases, and changes only through the single
increment. -/
theorem c6_usedCount_monotone (op : Op) (s : DbState) (k' : AccessKey)
    (hk' : k' ∈ (runOp op s).keys) :
    (∃ k, k ∈ s.keys ∧ k.id = k'.id ∧ k.usedCount = k'.usedCount) ∨
    (∃ k, k ∈ s.keys ∧ k.id = k'.id ∧ k'.usedCount = k.usedCount + 1 ∧
      ∃ ak ip t data now key, op = Op.generate ak ip t (GenOutcome.ok data) now ∧
        verifyAccessKey ak now s = Except.ok key ∧ k.id = key.id) ∨
    (k'.usedCount = 0 ∧ ∃ name mu dv c now, op = Op.create name mu dv c now ∧
      k' = newAccessKeyRow name mu dv c now s) := by
  cases op with
  | create n mu dv c now =>
    by_cases hb : s.keys.any (fun k => k.name == n) = true
    · simp only [runOp, createAccessKey, hb, if_true] at hk'
      left
      exact ⟨k', hk', rfl, rfl⟩
    · have hb' : s.keys.any (fun k => k.name == n) = false := by
        revert hb
        cases s.keys.any (fun k => k.name == n) <;> simp
      simp only [runOp, createAccessKey, hb', Bool.false_eq_true, if_false] at hk'
      rcases List.mem_append.mp hk' with h | h
      · left
        exact ⟨k', h, rfl, rfl⟩
      · right
        right
        have hknew : k' = newAccessKeyRow n mu dv c now s := by simpa using h
        exact ⟨by rw [hknew]; rfl, n, mu, dv, c, now, rfl, hknew⟩
  | update id mu ea =>
    simp only [runOp, updateAccessKey] at hk'
    rcases List.mem_map.mp hk' with ⟨k, hk, hfk⟩
    left
    refine ⟨k, hk, ?_, ?_⟩
    · by_cases h : k.id = id <;> rw [← hfk] <;> simp [h]
    · by_cases h : k.id = id <;> rw [← hfk] <;> simp [h]
  | delete id =>
    simp only [runOp, deleteAccessKey, deleteAccessKeyRow, deleteUsageLogsByKey] at hk'
    left
    exact ⟨k', (List.mem_filter.mp hk').1, rfl, rfl⟩
  | verify c now =>
    simp only [runOp] at hk'
    left
    exact ⟨k', hk', rfl, rfl⟩
  | generate ak ip t g now =>
    cases hv : verifyAccessKey ak now s with
    | error e =>
      simp only [runOp, genCardHandler, hv] at hk'
      left
      exact ⟨k', hk', rfl, rfl⟩
    | ok key =>
      cases g with
      | ok data =>
        simp only [runOp, genCardHandler, hv, logUsage, updateAccessKeyUsage] at hk'
        rcases List.mem_map.mp hk' with ⟨k, hk, hfk⟩
        by_cases h : k.id = key.id
        · right
          left
          refine ⟨k, hk, ?_, ?_, ak, ip, t, data, now, key, rfl, hv, h⟩
          · rw [← hfk]
            simp [h]
          · rw [← hfk]
            simp [h]
        · left
          refine ⟨k, hk, ?_, ?_⟩
          · rw [← hfk]
            simp [h]
          · rw [← hfk]
            simp [h]
      | fail msg =>
        simp only [runOp, genCardHandler, hv, logUsage] at hk'
        left
        exact ⟨k', hk', rfl, rfl⟩

/-- Witness for `c6_usedCount_monotone`: the sample key survives deleting
an unrelated id through the unchanged-count case of the trichotomy. -/
theorem c6_witness :
    (∃ k, k ∈ sSample.keys ∧ k.id = kSample.id ∧ k.usedCount = kSample.usedCount) ∨
    (∃ k, k ∈ sSample.keys ∧ k.id = kSample.id ∧ kSample.usedCount = k.usedCount + 1 ∧
      ∃ ak ip t data now key,
        Op.delete 2 = Op.generate ak ip t (GenOutcome.ok data) now ∧
        verifyAccessKey ak now sSample = Except.ok key ∧ k.id = key.id) ∨
    (kSample.usedCount = 0 ∧ ∃ name mu dv c now,
      Op.delete 2 = Op.create name mu dv c now ∧
      kSample = newAccessKeyRow name mu dv c now sSample) :=
  c6_usedCount_monotone (Op.delete 2) sSample kSample (by decide)

/-! ## C7 — updating a nonexistent id -/

/-- Helper: the `UPDATE ... WHERE id = $1` map is the identity when no
stored key carries `id`. -/
theorem map_update_of_no_id (l : List AccessKey) (id mu : Int) (ea : Option Int)
    (h : ∀ k, k ∈ l → k.id ≠ id) :
    l.map (fun k => if k.id = id then { k with maxUses := mu, expiresAt := ea } else k)
      = l := by
  induction l with
  | nil => rfl
  | cons x xs ih =>
    simp only [List.map_cons]
    rw [if_neg (h x (by simp)), ih (fun k hk => h k (by simp [hk]))]

/-- Helper: looking up `id` after the `UPDATE ... WHERE id = $1` map finds
the updated image of whatever row the lookup found before. -/
theorem find?_update_map (l : List AccessKey) (id mu : Int) (ea : Option Int) :
    (l.map (fun k => if k.id = id then { k with maxUses := mu, expiresAt := ea } else k)).find?
        (fun k => k.id == id)
      = (l.find? (fun k => k.id == id)).map
          (fun k => if k.id = id then { k with maxUses := mu, expiresAt := ea } else k) := by
  rw [List.find?_map]
  have hpf : ((fun (k : AccessKey) => k.id == id) ∘
        (fun k => if k.id = id then { k with maxUses := mu, expiresAt := ea } else k))
      = (fun (k : AccessKey) => k.id == id) := by
    funext k
    by_cases h : k.id = id <;> simp [Function.comp, h]
  rw [hpf]

/-- C7 (amended): `updateKey` on an id that references no stored key does
**not** fail: the UPDATE matches nothing, `result.rows[0]` is undefined,
and the handler answers HTTP 200 carrying no row, with the store
unchanged; on an existing id it answers 200 with the updated row. (The
claim's `NotFound` error is amended away: no such error exists in the
code.) -/
theorem c7_updateKey_result (s : DbState) (id mu : Int) (ea : Option Int)
    (hid : id ≠ 0) :
    (findKey id s = none →
      updateKeyRequest true id mu ea s = (UpdateKeyResp.ok none, s)) ∧
    (∀ k, findKey id s = some k →
      (updateKeyRequest true id mu ea s).1
        = UpdateKeyResp.ok (some { k with maxUses := mu, expiresAt := ea })) := by
  constructor
  · intro hnone
    have hno : ∀ k, k ∈ s.keys → k.id ≠ id := by
      intro k hk
      have := List.find?_eq_none.mp hnone k hk
      simpa using this
    simp only [updateKeyRequest, updateAccessKey, Bool.not_true, Bool.false_eq_true,
      if_false, if_neg hid]
    rw [map_update_of_no_id s.keys id mu ea hno]
    rw [show s.keys.find? (fun k => k.id == id) = none from hnone]
  · intro k hsome
    simp only [updateKeyRequest, updateAccessKey, Bool.not_true, Bool.false_eq_true,
      if_false, if_neg hid]
    rw [find?_update_map]
    have hkid : k.id = id := by
      have := List.find?_some hsome
      simpa using this
    rw [show s.keys.find? (fun k => k.id == id) = some k from hsome]
    simp [hkid]

/-- C7 counterexample: updating id 7 on the empty store — an id that
references no key — succeeds with an HTTP 200 response carrying no row
(`result.rows[0]` is undefined), and in particular is not the 500 error
response; the claimed `NotFound` failure does not happen. -/
theorem c7_counterexample :
    updateKeyRequest true 7 5 none sEmpty = (UpdateKeyResp.ok none, sEmpty) ∧
    (updateKeyRequest true 7 5 none sEmpty).1 ≠ UpdateKeyResp.err := by decide

/-- Witness for `c7_updateKey_result`: id 2 is absent from the sample
store; the handler answers 200 with no row and the state is unchanged. -/
theorem c7_witness :
    updateKeyRequest true 2 5 none sSample = (UpdateKeyResp.ok none, sSample) :=
  (c7_updateKey_result sSample 2 5 none (by decide)).1 (by decide)

/-! ## C8 — update overwrites exactly maxUses and expiresAt -/

/-- C8: `updateAccessKey` leaves the UsageLog table untouched, keeps the
key-row count, leaves every key with a different id unchanged, overwrites
exactly `maxUses` and `expiresAt` of each row with the given id
(unconditionally — `mu` and `ea` are arbitrary), and preserves `id`,
`code`, `name`, `usedCount`, `isActive` and `createdAt` of every row. -/
theorem c8_updateKey_frame (s : DbState) (id mu : Int) (ea : Option Int) :
    (updateAccessKey id mu ea s).2.logs = s.logs ∧
    (updateAccessKey id mu ea s).2.keys.length = s.keys.length ∧
    (∀ k, k ∈ s.keys → k.id ≠ id → k ∈ (updateAccessKey id mu ea s).2.keys) ∧
    (∀ k, k ∈ s.keys → k.id = id →
      ({ k with maxUses := mu, expiresAt := ea } : AccessKey)
        ∈ (updateAccessKey id mu ea s).2.keys) ∧
    (∀ k', k' ∈ (updateAccessKey id mu ea s).2.keys →
      ∃ k, k ∈ s.keys ∧ k'.id = k.id ∧ k'.code = k.code ∧ k'.name = k.name ∧
        k'.usedCount = k.usedCount ∧ k'.isActive = k.isActive ∧
        k'.createdAt = k.createdAt) := by
  refine ⟨rfl, by simp [updateAccessKey], ?_, ?_, ?_⟩
  · intro k hk hkid
    have hfk : k = (fun k => if k.id = id then { k with maxUses := mu, expiresAt := ea } else k) k := by
      simp only [if_neg hkid]
    simp only [updateAccessKey]
    rw [hfk]
    exact List.mem_map_of_mem _ hk
  · intro k hk hkid
    have hfk : ({ k with maxUses := mu, expiresAt := ea } : AccessKey)
        = (fun k => if k.id = id then { k with maxUses := mu, expiresAt := ea } else k) k := by
      simp only [if_pos hkid]
    simp only [updateAccessKey]
    rw [hfk]
    exact List.mem_map_of_mem _ hk
  · intro k' hk'
    simp only [updateAccessKey] at hk'
    rcases List.mem_map.mp hk' with ⟨k, hk, hfk⟩
    refine ⟨k, hk, ?_⟩
    by_cases h : k.id = id <;> rw [← hfk] <;> simp [h]

/-- Witness for `c8_updateKey_frame`: overwriting quota and expiry of the
sample key stores the overwritten row. -/
theorem c8_witness :
    ({ kSample with maxUses := 5, expiresAt := none } : AccessKey)
      ∈ (updateAccessKey 1 5 none sSample).2.keys :=
  (c8_updateKey_frame sSample 1 5 none).2.2.2.1 kSample (by decide) (by decide)

/-! ## C9 — creation defaults for maxUses and daysValid -/

/-- C9 (amended): through the admin create handler, `maxUses` becomes the
default 100 exactly when the supplied value is absent, non-numeric, or `0`
(the falsy cases of `Number(maxUses) || 100`); any other supplied number —
including negative values other than −1 — is stored as-is. `expiresInDays`
similarly defaults to 30, and since `Number(expiresInDays) || 30` is never
0, the created key's `expiresAt` is always set. -/
theorem c9_createKey_defaults (name : String) (mu days : JsNumInput)
    (keyCode : String) (now : Int) (s : DbState) (hname : name ≠ "")
    (hno : ∀ k, k ∈ s.keys → k.name ≠ name) :
    (createKeyRequest true name mu days keyCode now s).1
      = CreateKeyResp.created
          (newAccessKeyRow name (jsNumberOr mu 100) (some (jsNumberOr days 30))
            keyCode now s) ∧
    ((mu = JsNumInput.absent ∨ mu = JsNumInput.nonNumeric ∨ mu = JsNumInput.num 0) →
      jsNumberOr mu 100 = 100) ∧
    (∀ n, mu = JsNumInput.num n → n ≠ 0 → jsNumberOr mu 100 = n) ∧
    (∃ t, (newAccessKeyRow name (jsNumberOr mu 100) (some (jsNumberOr days 30))
        keyCode now s).expiresAt = some t) := by
  have h30 : jsNumberOr days 30 ≠ 0 := by
    cases days with
    | num n =>
      simp only [jsNumberOr]
      split_ifs with h
      · omega
      · exact h
    | absent => simp [jsNumberOr]
    | nonNumeric => simp [jsNumberOr]
  have hany : s.keys.any (fun k => k.name == name) = false := by
    rw [List.any_eq_false]
    intro k hk
    simp only [beq_iff_eq]
    exact hno k hk
  refine ⟨?_, ?_, ?_, ?_⟩
  · have hnb : (name == "") = false := by
      simpa using hname
    simp [createKeyRequest, createAccessKey, hany, hnb]
  · intro h
    rcases h with h | h | h <;> simp [jsNumberOr, h]
  · intro n hn hnz
    simp [jsNumberOr, hn, hnz]
  · exact ⟨now + daysToMs (jsNumberOr days 30), by simp [newAccessKeyRow, h30]⟩

/-- C9 counterexample: supplying `maxUses = -5` — not a valid positive or
−1 integer — creates a key whose `maxUses` is −5, not the claimed default
100: `Number(-5) || 100` is truthy and passes through. -/
theorem c9_counterexample :
    (createKeyRequest true "k" (JsNumInput.num (-5)) JsNumInput.absent "sk-c" 0 sEmpty).1
      = CreateKeyResp.created (newAccessKeyRow "k" (-5) (some 30) "sk-c" 0 sEmpty) ∧
    (newAccessKeyRow "k" (-5) (some 30) "sk-c" 0 sEmpty).maxUses = -5 ∧
    ((-5 : Int) ≠ -1 ∧ ¬((0 : Int) < -5) ∧
      (newAccessKeyRow "k" (-5) (some 30) "sk-c" 0 sEmpty).maxUses ≠ 100) := by decide

/-- Witness for `c9_createKey_defaults`: creating `"k"` on the empty store
with both fields absent yields the defaulted row (`maxUses = 100`,
expiry set). -/
theorem c9_witness :
    (createKeyRequest true "k" JsNumInput.absent JsNumInput.absent "sk-w" 0 sEmpty).1
      = CreateKeyResp.created
          (newAccessKeyRow "k" (jsNumberOr JsNumInput.absent 100)
            (some (jsNumberOr JsNumInput.absent 30)) "sk-w" 0 sEmpty) :=
  (c9_createKey_defaults "k" JsNumInput.absent JsNumInput.absent "sk-w" 0 sEmpty
    (by decide) (by decide)).1

end TuwenV2
